import Mathlib

/-!
Verification of the AutoyoutubeCreation pipeline's job-orchestration and
synchronization-planning core, shallowly embedded from the Python sources
(`1justMP4Video.py`, `3combineAll.py`).  Durations are modelled as
rationals, Python dicts as association lists or `Option`-valued fields,
and the effectful parts (HTTP, filesystem) as explicit oracle parameters.
-/

namespace AutoYT

/-! ### Duration reconciliation planner (`3combineAll.py`, main loop lines 75-96)

The source computes `diff = a_dur - v_dur` and picks a video filter:
`setpts={a/v}*PTS` when `0 < diff ≤ 4`, `tpad=stop_mode=clone:stop_duration={diff}`
when `diff > 4`, and the identity filter `null` otherwise. -/

/-- The three possible alignment transforms chosen by the merge loop. -/
inductive SyncDecision where
  | none : SyncDecision
  | stretch (factor : ℚ) : SyncDecision
  | freezePad (seconds : ℚ) : SyncDecision
deriving DecidableEq, Repr

/-- `plan a v` mirrors the `if diff > 0 and diff <= 4 / elif diff > 4 / else`
chain of the merge loop, with `diff = a - v`. -/
def plan (a v : ℚ) : SyncDecision :=
  let diff := a - v
  if 0 < diff ∧ diff ≤ 4 then .stretch (a / v)
  else if 4 < diff then .freezePad diff
  else .none

/-! ### Filename pairing (`3combineAll.py`, `index_from` and `main` lines 44-65)

`wav_pat = clip_(\d{4})_narration\.wav$` and
`mp4_pat = narrativegen_clip_(\d{4})__\d+\.mp4$` are applied with
`re.search`; since both patterns are anchored at the end of the name,
`search` succeeds exactly when the name has the pattern as a suffix, and
the captured group is unique.  `index_from` returns the group or `None`.
The pairing sets are built as `{index_from(p): p for p in glob}` whose
key sets therefore contain `None` whenever a non-matching file is
present, and `common = sorted(set(wavs) & set(mp4s))`.  (`\d` is
modelled as ASCII `0-9`; the filenames at play are ASCII.) -/

/-- Exactly four decimal digits. -/
def digits4 (l : List Char) : Bool := l.length == 4 && l.all (·.isDigit)

/-- `index_from` for `wav_pat`: the name must end with
`clip_` ++ 4 digits ++ `_narration.wav` (23 characters); the group is the
4 digits. -/
def wavIndex (name : String) : Option String :=
  let cs := name.data
  let n := cs.length
  if n < 23 then none
  else
    let suf := cs.drop (n - 23)
    let dig := (suf.drop 5).take 4
    if suf.take 5 = "clip_".data ∧ digits4 dig ∧ suf.drop 9 = "_narration.wav".data
    then some (String.mk dig) else none

/-- `index_from` for `mp4_pat`: the name must end with
`narrativegen_clip_` ++ 4 digits ++ `__` ++ (1 or more digits) ++ `.mp4`;
the group is the 4 digits.  Parsed from the end of the name since the
trailing digit run has variable length. -/
def mp4Index (name : String) : Option String :=
  let r := name.data.reverse
  if r.take 4 = ".mp4".data.reverse then
    let r1 := r.drop 4
    let ds := r1.takeWhile Char.isDigit
    if ds.length ≥ 1 ∧ (r1.drop ds.length).take 2 = "__".data then
      let r3 := (r1.drop ds.length).drop 2
      if digits4 (r3.take 4).reverse ∧ (r3.drop 4).take 18 = "narrativegen_clip_".data.reverse
      then some (String.mk (r3.take 4).reverse) else none
    else none
  else none

/-- Key set of `{index_from(p, wav_pat): p for p in sound_dir.glob}`:
the distinct values of `wavIndex` over the file names (`none` = Python
`None`, present as a key whenever some name does not match). -/
def wavKeys (names : List String) : List (Option String) := (names.map wavIndex).dedup

/-- Key set of the video-side dict comprehension, analogously. -/
def mp4Keys (names : List String) : List (Option String) := (names.map mp4Index).dedup

/-- `set(wavs) & set(mp4s)`. -/
def commonKeys (ws ms : List String) : List (Option String) :=
  (wavKeys ws).filter (fun k => (mp4Keys ms).contains k)

/-- Outcome of `common = sorted(set(wavs) & set(mp4s))` followed by the
`if not common: raise RuntimeError` guard. -/
inductive PairingOutcome where
  | typeError : PairingOutcome    -- `sorted` compared `None` with `str`
  | noMatch : PairingOutcome      -- `RuntimeError("No matching indices found!")`
  | pairs (l : List (Option String)) : PairingOutcome  -- indices the merge loop runs on
deriving DecidableEq, Repr

/-- Lexicographic comparison of strings by code point, as Python compares
`str` values. -/
def charListLe : List Char → List Char → Bool
  | [], _ => true
  | _ :: _, [] => false
  | x :: xs, y :: ys => if x = y then charListLe xs ys else decide (x < y)

/-- Comparator for `sorted` on the common keys; only the all-`some` (or
singleton) case is reachable because a mix of `None` and `str` raises. -/
def keyLe (a b : Option String) : Bool :=
  match a, b with
  | some x, some y => charListLe x.data y.data
  | _, _ => true

/-- `common = sorted(set(wavs) & set(mp4s))`; `if not common: raise`.
`sorted` raises `TypeError` when the set mixes `None` with strings. -/
def pairingPlan (ws ms : List String) : PairingOutcome :=
  let common := commonKeys ws ms
  if common = [] then .noMatch
  else if none ∈ common ∧ 2 ≤ common.length then .typeError
  else .pairs (common.insertionSort (fun a b => keyLe a b = true))

/-! ### Output locator resolver (`1justMP4Video.py`, lines 207-265)

`node_output_data` is probed through an `if/elif` chain for the keys
`videos`, `files`, `uris`, `gifs`, `images`, each key being taken when
present and non-empty.  A first `uris` entry that is a string is parsed
for `/view`-style query parameters only when it contains the substring
`filename=`; `urllib.parse.parse_qs` drops blank values and
fields without `=` (percent-decoding is not modelled; no claim exercises
it).  The chain result then yields `SUCCESS` (with `type`/`subfolder`
defaults), `ERROR_POTENTIAL_KEY_LACKS_FILENAME`, or
`ERROR_NO_USABLE_KEY_IN_OUTPUT_MP4`. -/

/-- A ComfyUI file-descriptor record; `none` stands for an absent key
(Python's `None` values and absent keys behave identically in every path
the script takes). -/
structure FileRec where
  filename : Option String
  subfolder : Option String
  ftype : Option String
deriving DecidableEq, Repr

/-- Python truthiness of an optional string: present and non-empty. -/
def truthyOpt : Option String → Bool
  | some s => !(s == "")
  | none => false

/-- An entry of the `uris` list: either a bare URI string or a
structured record. -/
inductive UriEntry where
  | str (s : String) : UriEntry
  | record (r : FileRec) : UriEntry
deriving DecidableEq, Repr

/-- The output payload of the save node, keyed by the five candidate
keys; `none` = key absent, `some []` = key present but empty. -/
structure NodeOutput where
  videos : Option (List FileRec) := none
  files : Option (List FileRec) := none
  uris : Option (List UriEntry) := none
  gifs : Option (List FileRec) := none
  images : Option (List FileRec) := none
deriving DecidableEq, Repr

/-- `key in node_output_data and len(node_output_data[key]) > 0`. -/
def hasItems {α : Type} : Option (List α) → Bool
  | some (_ :: _) => true
  | _ => false

/-- First element of a present, non-empty list value. -/
def firstOf {α : Type} : Option (List α) → Option α
  | some (x :: _) => some x
  | _ => none

/-- Split a character list at the first occurrence of `c`
(`str.split(c, 1)`); `none` when `c` does not occur. -/
def splitOnFirst (c : Char) : List Char → Option (List Char × List Char)
  | [] => none
  | x :: xs =>
    if x = c then some ([], xs)
    else (splitOnFirst c xs).map (fun p => (x :: p.1, p.2))

/-- The query component of a URI as `urllib.parse.urlparse` extracts it:
everything after the first `?` of the part before the first `#`. -/
def queryOf (s : List Char) : List Char :=
  let beforeFrag := s.takeWhile (· ≠ '#')
  match splitOnFirst '?' beforeFrag with
  | some (_, q) => q
  | none => []

/-- The key/value pairs `urllib.parse.parse_qs` keeps: fields split on
`&`, each split at its first `=`; fields without `=` and fields with a
blank value are dropped (`keep_blank_values=False`). -/
def qsPairs (q : List Char) : List (List Char × List Char) :=
  (q.splitOn '&').filterMap fun field =>
    match splitOnFirst '=' field with
    | none => none
    | some (k, v) => if v = [] then none else some (k, v)

/-- `parse_qs(q).get(key, [dflt])[0]`: the first kept value for `key`,
or the default when the key never occurs. -/
def qsFirst (q : List Char) (key : String) (dflt : Option String) : Option String :=
  match (qsPairs q).find? (fun p => p.1 == key.data) with
  | some p => some (String.mk p.2)
  | none => dflt

/-- Substring test (`"filename=" in uri_data`). -/
def containsSub (pat : List Char) : List Char → Bool
  | [] => pat.isEmpty
  | x :: xs => pat.isPrefixOf (x :: xs) || containsSub pat xs

/-- The record built from a string URI (lines 228-235): query parameters
`filename` (default `None`), `subfolder` (default `""`), `type` (default
`"output"`). -/
def uriRecord (s : String) : FileRec :=
  let q := queryOf s.data
  { filename := qsFirst q "filename" none
    subfolder := some ((qsFirst q "subfolder" none).getD "")
    ftype := some ((qsFirst q "type" none).getD "output") }

/-- The `if/elif` candidate-key chain (lines 212-247) producing
`found_file_info`.  Note that once `uris` is the selected key, a string
entry from which no filename can be read leaves `found_file_info = None`
without falling through to `gifs`/`images`. -/
def found_file_info (o : NodeOutput) : Option FileRec :=
  if hasItems o.videos then firstOf o.videos
  else if hasItems o.files then firstOf o.files
  else if hasItems o.uris then
    match firstOf o.uris with
    | some (.str s) =>
        if containsSub "filename=".data s.data then some (uriRecord s) else none
    | some (.record r) => some r
    | none => none
  else if hasItems o.gifs then firstOf o.gifs
  else if hasItems o.images then firstOf o.images
  else none

/-- Terminal outcome of the resolution step (lines 250-265). -/
inductive ResolveResult where
  | success (info : FileRec) : ResolveResult
  | lacksFilename : ResolveResult   -- ERROR_POTENTIAL_KEY_LACKS_FILENAME
  | noUsableKey : ResolveResult     -- ERROR_NO_USABLE_KEY_IN_OUTPUT_MP4
deriving DecidableEq, Repr

/-- Defaults applied on success (lines 252-257): a missing or falsy
`type` becomes `"output"`; a missing `subfolder` becomes `""`. -/
def applyDefaults (fi : FileRec) : FileRec :=
  { fi with
    ftype := if truthyOpt fi.ftype then fi.ftype else some "output"
    subfolder := some (fi.subfolder.getD "") }

/-- `resolve` turns the chain result into the terminal outcome: success
requires a present, non-empty `filename`. -/
def resolve (o : NodeOutput) : ResolveResult :=
  match found_file_info o with
  | none => .noUsableKey
  | some fi => if truthyOpt fi.filename then .success (applyDefaults fi) else .lacksFilename

/-! ### Artifact fetcher (`1justMP4Video.py`, `download_comfy_output`, lines 121-160)

The function returns `False` on a falsy filename; otherwise it runs
`os.makedirs(dirname, exist_ok=True)`, opens the `/view` URL and, on a
200 response, writes the body and then re-checks the filesystem:
`os.path.exists(target) and os.path.getsize(target) > 0`.  The network
and the post-write filesystem state are modelled as an oracle. -/

/-- Observable side effects of the fetcher, in order. -/
inductive FetchEffect where
  | makedirs : FetchEffect   -- os.makedirs(os.path.dirname(target), exist_ok=True)
  | write : FetchEffect      -- open(target, 'wb').write(response.read())
deriving DecidableEq, Repr

/-- Outcome of the transfer attempt: an exception from `urlopen`, or a
response with its HTTP status together with the filesystem state the
post-write check will observe. -/
inductive TransferOutcome where
  | raiseHTTP : TransferOutcome
  | raiseOther : TransferOutcome
  | response (status : Nat) (postExists : Bool) (postSize : Nat) : TransferOutcome
deriving DecidableEq, Repr

/-- `download_comfy_output(filename, subfolder, file_type, target)`:
returns the success flag and the ordered effect trace.  `subfolder`,
`fileType` and `target` only feed the request URL / write path. -/
def download_comfy_output (filename : Option String)
    (subfolder fileType target : String) (outcome : TransferOutcome) :
    Bool × List FetchEffect :=
  if truthyOpt filename = false then (false, [])
  else
    match outcome with
    | .raiseHTTP => (false, [.makedirs])
    | .raiseOther => (false, [.makedirs])
    | .response status postExists postSize =>
      if status == 200 then
        (postExists && decide (0 < postSize), [.makedirs, .write])
      else (false, [.makedirs])

/-! ### Render job client (`1justMP4Video.py`, `run_comfyui_video_generation`,
lines 162-277)

The workflow template is a JSON mapping node-id → node; a node's
`"inputs"` mapping is the only part the function touches (nodes in the
file always carry `"inputs"`).  Assigning into a Python dict replaces an
existing key in place or appends a new one.  `random.randint` and the
two network calls are modelled as parameters/oracles. -/

/-- A JSON scalar stored in a node's `inputs`. -/
inductive JVal where
  | s (v : String) : JVal
  | n (v : Int) : JVal
deriving DecidableEq, Repr

/-- A workflow node (only its `"inputs"` mapping is relevant). -/
structure WfNode where
  inputs : List (String × JVal)
deriving DecidableEq, Repr

/-- A workflow: Python dict node-id → node, as an association list with
distinct keys in insertion order. -/
abbrev Workflow := List (String × WfNode)

def POSITIVE_PROMPT_NODE_ID : String := "6"
def KSAMPLER_NODE_ID : String := "3"
def EMPTY_LATENT_VIDEO_NODE_ID : String := "40"
def SAVE_MP4_NODE_ID : String := "52"

/-- Python dict assignment `m[k] = v`: replace the (unique) existing
entry in place, or append a new one at the end. -/
def dictSet {β : Type} (m : List (String × β)) (k : String) (v : β) : List (String × β) :=
  match m with
  | [] => [(k, v)]
  | (k', v') :: rest => if k' == k then (k, v) :: rest else (k', v') :: dictSet rest k v

/-- `workflow[nid]["inputs"][field] = v`; `none` is Python's `KeyError`
when the node id is absent. -/
def setInput (w : Workflow) (nid field : String) (v : JVal) : Option Workflow :=
  match w.lookup nid with
  | none => none
  | some nd => some (w.map (fun p => if p.1 == nid then (p.1, ⟨dictSet nd.inputs field v⟩) else p))

/-- `copy.deepcopy`: a fresh object with the same value. -/
def deepcopy (w : Workflow) : Workflow := w

/-- Lines 167-175: `workflow_to_run = copy.deepcopy(base_workflow)`
followed by the prompt-text, seed and latent-size edits (all performed
on the copy). -/
def buildWorkflowToRun (bw : Workflow) (text : String) (seed frames width height : Int) :
    Option Workflow :=
  let workflow_to_run := deepcopy bw
  (setInput workflow_to_run POSITIVE_PROMPT_NODE_ID "text" (.s text)).bind fun w1 =>
  (setInput w1 KSAMPLER_NODE_ID "seed" (.n seed)).bind fun w2 =>
  (setInput w2 EMPTY_LATENT_VIDEO_NODE_ID "length" (.n frames)).bind fun w3 =>
  (setInput w3 EMPTY_LATENT_VIDEO_NODE_ID "width" (.n width)).bind fun w4 =>
  setInput w4 EMPTY_LATENT_VIDEO_NODE_ID "height" (.n height)

/-- One `comfy_get_history` answer, as the poll loop discriminates it:
falsy/handle-less history, an entry still without `"outputs"`, or the
`"outputs"` mapping node-id → payload. -/
inductive PollResponse where
  | noHistory : PollResponse
  | noOutputs : PollResponse
  | outputs (m : List (String × NodeOutput)) : PollResponse
deriving DecidableEq, Repr

/-- Environment of one generation call: the queue answer (`prompt_id`
when present) and the history answer for each poll attempt. -/
structure GenEnv where
  queueResult : Option String
  poll : Nat → PollResponse

/-- Return value of `run_comfyui_video_generation`: the `status` string,
the optional `data` record, and (instrumentation) whether
`comfy_queue_prompt` was reached. -/
structure GenResult where
  status : String
  data : Option FileRec
  queued : Bool
deriving DecidableEq, Repr

/-- Lines 250-265 mapped into the returned dict. -/
def resolveToGenResult (nod : NodeOutput) : GenResult :=
  match resolve nod with
  | .success info => ⟨"SUCCESS", some info, true⟩
  | .lacksFilename => ⟨"ERROR_POTENTIAL_KEY_LACKS_FILENAME", none, true⟩
  | .noUsableKey => ⟨"ERROR_NO_USABLE_KEY_IN_OUTPUT_MP4", none, true⟩

def max_poll_attempts : Nat := 360

/-- The poll loop (lines 193-277), by remaining attempts: a history
containing `"outputs"` is terminal (resolution or
`ERROR_SAVE_NODE_NOT_IN_OUTPUTS`); otherwise the loop continues and the
exhausted range yields `ERROR_TIMEOUT`. -/
def pollFrom (poll : Nat → PollResponse) : Nat → Nat → GenResult
  | _, 0 => ⟨"ERROR_TIMEOUT", none, true⟩
  | attempt, r + 1 =>
    match poll attempt with
    | .noHistory => pollFrom poll (attempt + 1) r
    | .noOutputs => pollFrom poll (attempt + 1) r
    | .outputs m =>
      match m.lookup SAVE_MP4_NODE_ID with
      | some nod => resolveToGenResult nod
      | none => ⟨"ERROR_SAVE_NODE_NOT_IN_OUTPUTS", none, true⟩

/-- `run_comfyui_video_generation`; `none` is an uncaught `KeyError`
(a template missing node 6, 3 or 40). -/
def run_comfyui_video_generation (env : GenEnv) (base_workflow : Option Workflow)
    (video_prompt_text prefixStr : String) (video_frames video_width video_height seed : Int) :
    Option GenResult :=
  match base_workflow with
  | none => some ⟨"ERROR_WORKFLOW_NOT_LOADED", none, false⟩
  | some bw =>
    if bw.isEmpty then some ⟨"ERROR_WORKFLOW_NOT_LOADED", none, false⟩
    else
      match buildWorkflowToRun bw video_prompt_text seed video_frames video_width video_height with
      | none => none
      | some workflow_to_run =>
        if (workflow_to_run.lookup SAVE_MP4_NODE_ID).isNone then
          some ⟨"ERROR_SAVE_MP4_NODE_MISSING_IN_WORKFLOW", none, false⟩
        else
          match setInput workflow_to_run SAVE_MP4_NODE_ID "filename_prefix" (.s prefixStr) with
          | none => none
          | some _ =>
            match env.queueResult with
            | none => some ⟨"ERROR_QUEUE_FAILED", none, true⟩
            | some _ => some (pollFrom env.poll 0 max_poll_attempts)

/-! ### Stage 2 loop and manifest (`1justMP4Video.py`, lines 354-427),
stage 6 ordering (lines 468-488) -/

/-- One pregenerated content item (`item.get(...)`; `none` = key absent). -/
structure ContentItem where
  id : Option Int
  image_prompt : Option String
  duration_frames : Option Int
  width : Option Int
  height : Option Int
deriving DecidableEq, Repr

/-- One manifest record appended at line 416 (or 365). -/
structure ClipEntry where
  id : Int
  clip_order : Nat
  status : String
  comfy_file_info : Option FileRec
  mp4_path : Option String
deriving DecidableEq, Repr

/-- Oracle for one loop iteration: generation environment, the drawn
seed, and the transfer outcome of the download attempt. -/
structure ItemEnv where
  gen : GenEnv
  seed : Int
  transfer : TransferOutcome

def DEFAULT_VIDEO_WIDTH : Int := 832
def DEFAULT_VIDEO_HEIGHT : Int := 480
def DEFAULT_VIDEO_FRAMES : Int := 65
def VIDEO_MP4_SUBDIR : String := "video_outputs/mp4_clips"

/-- Left-pad with zeros to the given width. -/
def leftPadZero (s : String) (w : Nat) : String :=
  String.mk (List.replicate (w - s.length) '0') ++ s

/-- `f"{item_id:04d}"`: zero-pad to overall width 4, sign included. -/
def pad4 (n : Int) : String :=
  if n < 0 then "-" ++ leftPadZero (toString (-n)) 3 else leftPadZero (toString n) 4

/-- ASCII lowering of `str.lower()` (the filenames at play are ASCII). -/
def lowerStr (s : String) : String := String.mk (s.data.map Char.toLower)

/-- `retrieved_filename.lower().endswith(".mp4")`. -/
def hasMp4Suffix (s : String) : Bool := ".mp4".data.isSuffixOf (lowerStr s).data

/-- The local save path for a retrieved filename:
`os.path.join(VIDEO_MP4_SUBDIR, retrieved)` after appending `.mp4` when
the lowered name does not already end in it (lines 390-396). -/
def localMp4Path (retrieved : String) : String :=
  VIDEO_MP4_SUBDIR ++ "/" ++ (if hasMp4Suffix retrieved then retrieved else retrieved ++ ".mp4")

/-- One iteration of the stage-2 loop (lines 359-420): building the
manifest record for item `i` and reporting whether a queue call was
made; `none` propagates an uncaught exception. -/
def processItem (bw : Option Workflow) (ienv : ItemEnv) (i : Nat) (item : ContentItem) :
    Option (ClipEntry × Bool) :=
  if truthyOpt item.image_prompt = false then
    some ({ id := item.id.getD (Int.ofNat (i + 1)), clip_order := i,
            status := "SKIPPED_NO_PROMPT", comfy_file_info := none, mp4_path := none }, false)
  else
    match run_comfyui_video_generation ienv.gen bw (item.image_prompt.getD "")
        ("narrativegen_clip_" ++ pad4 (item.id.getD (Int.ofNat (i + 1))) ++ "_")
        (item.duration_frames.getD DEFAULT_VIDEO_FRAMES)
        (item.width.getD DEFAULT_VIDEO_WIDTH)
        (item.height.getD DEFAULT_VIDEO_HEIGHT) ienv.seed with
    | none => none
    | some gr =>
      if gr.status == "SUCCESS" then
        match gr.data with
        | some fi =>
          if truthyOpt fi.filename then
            if (download_comfy_output fi.filename (fi.subfolder.getD "")
                  (fi.ftype.getD "output") (localMp4Path (fi.filename.getD ""))
                  ienv.transfer).1 then
              some ({ id := item.id.getD (Int.ofNat (i + 1)), clip_order := i,
                      status := "SUCCESS_MP4_DOWNLOADED", comfy_file_info := some fi,
                      mp4_path := some (localMp4Path (fi.filename.getD "")) }, gr.queued)
            else
              some ({ id := item.id.getD (Int.ofNat (i + 1)), clip_order := i,
                      status := "ERROR_MP4_DOWNLOAD_FAILED", comfy_file_info := some fi,
                      mp4_path := none }, gr.queued)
          else
            some ({ id := item.id.getD (Int.ofNat (i + 1)), clip_order := i,
                    status := "ERROR_SUCCESS_NO_FILEDATA", comfy_file_info := some fi,
                    mp4_path := none }, gr.queued)
        | none =>
          some ({ id := item.id.getD (Int.ofNat (i + 1)), clip_order := i,
                  status := "ERROR_SUCCESS_NO_FILEDATA", comfy_file_info := none,
                  mp4_path := none }, gr.queued)
      else
        some ({ id := item.id.getD (Int.ofNat (i + 1)), clip_order := i,
                status := gr.status, comfy_file_info := none, mp4_path := none }, gr.queued)

/-- The stage-2 loop over the item list starting at index `i`: the
appended manifest and the number of queue submissions made. -/
def stage2 (bw : Option Workflow) (envs : Nat → ItemEnv) :
    Nat → List ContentItem → Option (List ClipEntry × Nat)
  | _, [] => some ([], 0)
  | i, item :: rest =>
    match processItem bw (envs i) i item with
    | none => none
    | some (e, q) =>
      match stage2 bw envs (i + 1) rest with
      | none => none
      | some (m, n) => some (e :: m, n + (if q then 1 else 0))

/-- `clips_manifest.sort(key=lambda x: x.get("clip_order", inf))`:
Python's stable ascending sort (every stage-2 record carries
`clip_order`, so the `inf` default for an absent key is unreachable). -/
def sortManifest (m : List ClipEntry) : List ClipEntry :=
  m.insertionSort (fun a b => a.clip_order ≤ b.clip_order)

/-- The stage-6 selection (lines 476-480): sorted records with a
downloaded status, a truthy path, and an existing file (`fs` models
`os.path.exists`). -/
def stage6Entries (fs : String → Bool) (m : List ClipEntry) : List ClipEntry :=
  (sortManifest m).filter fun c =>
    c.status == "SUCCESS_MP4_DOWNLOADED" && truthyOpt c.mp4_path && fs (c.mp4_path.getD "")

/-- The concatenation list `valid_mp4_paths_for_concat`. -/
def stage6Paths (fs : String → Bool) (m : List ClipEntry) : List String :=
  (stage6Entries fs m).filterMap (·.mp4_path)

/-- A well-formed four-node template (used by concrete witnesses). -/
def sampleWf : Workflow :=
  [("6", ⟨[("text", .s "")]⟩), ("3", ⟨[("seed", .n 0)]⟩),
   ("40", ⟨[("length", .n 0), ("width", .n 0), ("height", .n 0)]⟩),
   ("52", ⟨[("filename_prefix", .s "")]⟩)]

end AutoYT

namespace AutoYT

/-- `diff ≤ 0` branch of the merge loop: no filter. -/
theorem plan_of_nonpos (a v : ℚ) (h : a - v ≤ 0) : plan a v = .none := by
  unfold plan
  rw [if_neg (by rintro ⟨h1, _⟩; linarith), if_neg (by intro h1; linarith)]

/-- `0 < diff ≤ 4` branch of the merge loop: slow the video down by `a/v`. -/
theorem plan_of_small (a v : ℚ) (hv : 0 < v) (h1 : 0 < a - v) (h2 : a - v ≤ 4) :
    plan a v = .stretch (a / v) ∧ 1 < a / v := by
  constructor
  · unfold plan
    rw [if_pos ⟨h1, h2⟩]
  · rw [lt_div_iff₀ hv]; linarith

/-- `diff > 4` branch of the merge loop: freeze the last frame for `diff` seconds. -/
theorem plan_of_large (a v : ℚ) (h : 4 < a - v) : plan a v = .freezePad (a - v) := by
  unfold plan
  rw [if_neg (by rintro ⟨_, h2⟩; linarith), if_pos h]

/-- C1: for `v > 0`: `diff ≤ 0` yields `NONE`; `0 < diff ≤ 4` yields
`STRETCH(a/v)` with factor `> 1`; `diff > 4` yields `FREEZE_PAD(diff)`;
and the three concrete scenarios hold: `(7,5) ↦ STRETCH(1.4)`,
`(12,5) ↦ FREEZE_PAD(7)`, `(4,6) ↦ NONE` (note `1.4 = 7/5`). -/
theorem plan_cases (a v : ℚ) (hv : 0 < v) :
    (a - v ≤ 0 → plan a v = .none) ∧
    (0 < a - v → a - v ≤ 4 → plan a v = .stretch (a / v) ∧ 1 < a / v) ∧
    (4 < a - v → plan a v = .freezePad (a - v)) ∧
    plan 7 5 = .stretch (7/5) ∧ plan 12 5 = .freezePad 7 ∧ plan 4 6 = .none := by
  refine ⟨plan_of_nonpos a v, fun h1 h2 => plan_of_small a v hv h1 h2, plan_of_large a v, ?_, ?_, ?_⟩
  · exact (plan_of_small 7 5 (by norm_num) (by norm_num) (by norm_num)).1
  · have h := plan_of_large 12 5 (by norm_num)
    rw [h]; norm_num
  · exact plan_of_nonpos 4 6 (by norm_num)

/-- C2 (evaluation at the failing input): two files matching neither
pattern still form a pairing — both dict comprehensions produce the key
`None`, `None` survives `set(wavs) & set(mp4s)`, and the merge loop then
runs once, pairing `foo.wav` with `bar.mp4`.  With well-formed names the
claimed behaviour does hold: narration ids {0001,0002,0003} against video
ids {0002,0003,0004} pair exactly {0002,0003}. -/
theorem pairing_none_bug :
    pairingPlan ["foo.wav"] ["bar.mp4"] = .pairs [none] ∧
    wavIndex "foo.wav" = none ∧ mp4Index "bar.mp4" = none ∧
    pairingPlan
      ["clip_0001_narration.wav", "clip_0002_narration.wav", "clip_0003_narration.wav"]
      ["narrativegen_clip_0002__1.mp4", "narrativegen_clip_0003__2.mp4",
       "narrativegen_clip_0004__3.mp4"]
      = .pairs [some "0002", some "0003"] := by
  refine ⟨?_, rfl, rfl, ?_⟩ <;> rfl

/-- C5: the candidate keys are probed in the order `videos`, `files`,
`uris`, `gifs`, `images`, the first present non-empty key being taken;
when `uris` is taken the outcome is independent of `gifs`/`images`; and
a structured-record key present together with `uris` wins, its first
record being the one resolved. -/
theorem resolver_priority_order (o : NodeOutput) :
    (∀ r rest, o.videos = some (r :: rest) → found_file_info o = some r) ∧
    (hasItems o.videos = false → ∀ r rest, o.files = some (r :: rest) →
      found_file_info o = some r) ∧
    (hasItems o.videos = false → hasItems o.files = false → hasItems o.uris = true →
      ∀ g i, found_file_info { o with gifs := g, images := i } = found_file_info o) ∧
    (hasItems o.videos = false → hasItems o.files = false → hasItems o.uris = false →
      ∀ r rest, o.gifs = some (r :: rest) → found_file_info o = some r) ∧
    (hasItems o.videos = false → hasItems o.files = false → hasItems o.uris = false →
      hasItems o.gifs = false → ∀ r rest, o.images = some (r :: rest) →
      found_file_info o = some r) ∧
    (∀ r rest us, o.videos = some (r :: rest) → o.uris = some us →
      truthyOpt r.filename = true → resolve o = .success (applyDefaults r)) := by
  refine ⟨?_, ?_, ?_, ?_, ?_, ?_⟩
  · intro r rest h
    simp [found_file_info, h, hasItems, firstOf]
  · intro hv r rest h
    unfold found_file_info
    rw [hv]
    simp [h, hasItems, firstOf]
  · intro hv hf hu g i
    simp [found_file_info, hv, hf, hu]
  · intro hv hf hu r rest h
    unfold found_file_info
    rw [hv, hf, hu]
    simp [h, hasItems, firstOf]
  · intro hv hf hu hg r rest h
    unfold found_file_info
    rw [hv, hf, hu, hg]
    simp [h, hasItems, firstOf]
  · intro r rest us hv _ ht
    have h1 : found_file_info o = some r := by
      simp [found_file_info, hv, hasItems, firstOf]
    simp [resolve, h1, ht]

/-- Witness for `resolver_priority_order`: both `videos` and `uris`
present and non-empty; the `videos` record is resolved. -/
theorem resolver_priority_order_witness :
    found_file_info { videos := some [⟨some "a.mp4", some "", some "output"⟩],
                      uris := some [.str "x"] }
      = some ⟨some "a.mp4", some "", some "output"⟩ ∧
    resolve { videos := some [⟨some "a.mp4", some "", some "output"⟩],
              uris := some [.str "x"] }
      = .success (applyDefaults ⟨some "a.mp4", some "", some "output"⟩) :=
  ⟨(resolver_priority_order _).1 _ [] rfl,
   (resolver_priority_order _).2.2.2.2.2 _ [] [.str "x"] rfl rfl rfl⟩

/-- C3 counterexample: `uris` is the first present non-empty key, its
first URI parses to no filename (`"filename="` does not occur), and the
next candidate key `gifs` holds a perfectly usable record — yet the
resolver concludes `ERROR_NO_USABLE_KEY_IN_OUTPUT_MP4` instead of trying
`gifs`: the `elif` chain never falls through once `uris` is selected. -/
theorem uris_no_fallthrough_counterexample :
    resolve { uris := some [.str "http://127.0.0.1:8188/view?foo=bar"],
              gifs := some [⟨some "a.mp4", some "", some "output"⟩] } = .noUsableKey ∧
    truthyOpt (FileRec.filename ⟨some "a.mp4", some "", some "output"⟩) = true :=
  ⟨rfl, rfl⟩

/-- C3 amended: when `uris` is the first present non-empty candidate and
its first entry is a string URI yielding no filename, the resolver
terminates at that candidate (for every content of `gifs`/`images`):
`ERROR_NO_USABLE_KEY_IN_OUTPUT_MP4` when the URI lacks `filename=`, and
`ERROR_POTENTIAL_KEY_LACKS_FILENAME` when a parsed record lacks a usable
filename. -/
theorem uris_terminal_amended (o : NodeOutput) (s : String) (rest : List UriEntry)
    (hv : hasItems o.videos = false) (hf : hasItems o.files = false)
    (hu : o.uris = some (.str s :: rest)) :
    (containsSub "filename=".data s.data = false → resolve o = .noUsableKey) ∧
    (containsSub "filename=".data s.data = true → truthyOpt (uriRecord s).filename = false →
      resolve o = .lacksFilename) := by
  constructor
  · intro hc
    unfold resolve found_file_info
    rw [hv, hf, hu]
    simp [hasItems, firstOf, hc]
  · intro hc ht
    unfold resolve found_file_info
    rw [hv, hf, hu]
    simp [hasItems, firstOf, hc, ht]

/-- Witness for `uris_terminal_amended`: a bare `/view` URI with no
`filename=` parameter and a populated `gifs` key. -/
theorem uris_terminal_amended_witness :
    resolve { uris := some [.str "http://127.0.0.1:8188/view?foo=bar"],
              gifs := some [⟨some "b.mp4", some "", some "output"⟩] } = .noUsableKey :=
  (uris_terminal_amended
      { uris := some [.str "http://127.0.0.1:8188/view?foo=bar"],
        gifs := some [⟨some "b.mp4", some "", some "output"⟩] }
      "http://127.0.0.1:8188/view?foo=bar" [] rfl rfl rfl).1 rfl

/-- Witness for `plan_cases` at `a = 7`, `v = 5`. -/
theorem plan_cases_witness :
    (0 : ℚ) < 5 ∧ ((0:ℚ) < 7 - 5 ∧ (7:ℚ) - 5 ≤ 4 ∧ plan 7 5 = .stretch (7/5) ∧ (1:ℚ) < 7/5) := by
  have h := plan_cases 7 5 (by norm_num)
  refine ⟨by norm_num, by norm_num, by norm_num, ?_, ?_⟩
  · exact (h.2.1 (by norm_num) (by norm_num)).1
  · exact (h.2.1 (by norm_num) (by norm_num)).2

/-- C7: the fetcher succeeds exactly when the filename is usable, the
response status is 200, and the post-write check finds an existing file
of non-zero size; a zero-byte or missing file after an error-free
transfer is reported as failure; the parent-directory creation precedes
the write in the effect trace; and transport exceptions report failure. -/
theorem fetcher_verifies_nonempty (fn : Option String) (sub fty tgt : String)
    (st : Nat) (ex : Bool) (sz : Nat) :
    ((download_comfy_output fn sub fty tgt (.response st ex sz)).1 = true ↔
      (truthyOpt fn = true ∧ st = 200 ∧ ex = true ∧ 0 < sz)) ∧
    ((download_comfy_output fn sub fty tgt (.response st ex sz)).2 =
      if truthyOpt fn then (if st == 200 then [.makedirs, .write] else [.makedirs]) else []) ∧
    (download_comfy_output fn sub fty tgt .raiseHTTP).1 = false ∧
    (download_comfy_output fn sub fty tgt .raiseOther).1 = false := by
  cases htr : truthyOpt fn <;>
    simp [download_comfy_output, htr] <;>
    by_cases hst : st = 200 <;>
    simp [hst, and_assoc]

/-- Distinct strings compare `false` under `==`. -/
theorem str_beq_false {k k' : String} (h : k ≠ k') : (k == k') = false := by
  cases hkk : k == k' with
  | false => rfl
  | true => exact absurd (eq_of_beq hkk) h

/-- Association-list lookup at the head key. -/
theorem lookup_cons_eq {β : Type} (k : String) (v : β) (rest : List (String × β)) :
    List.lookup k ((k, v) :: rest) = some v := by
  simp [List.lookup]

/-- Association-list lookup skips a head with a different key. -/
theorem lookup_cons_ne {β : Type} (k k' : String) (v : β) (rest : List (String × β))
    (h : k ≠ k') : List.lookup k ((k', v) :: rest) = List.lookup k rest := by
  simp [List.lookup, str_beq_false h]

/-- Assigning a key makes it look up to the assigned value. -/
theorem dictSet_lookup_self {β : Type} (m : List (String × β)) (k : String) (v : β) :
    (dictSet m k v).lookup k = some v := by
  induction m with
  | nil => simp [dictSet, lookup_cons_eq]
  | cons x rest ih =>
    obtain ⟨k', v'⟩ := x
    by_cases hx : k' = k
    · subst hx
      simp [dictSet, lookup_cons_eq]
    · simp only [dictSet, str_beq_false hx, Bool.false_eq_true, if_false]
      rw [lookup_cons_ne _ _ _ _ (Ne.symm hx)]
      exact ih

/-- Assigning a key leaves every other key's lookup unchanged. -/
theorem dictSet_lookup_ne {β : Type} (m : List (String × β)) (k k' : String) (v : β)
    (h : k' ≠ k) : (dictSet m k v).lookup k' = m.lookup k' := by
  induction m with
  | nil => simp [dictSet, lookup_cons_ne _ _ _ _ h]
  | cons x rest ih =>
    obtain ⟨k₀, v₀⟩ := x
    by_cases hx : k₀ = k
    · subst hx
      simp only [dictSet, beq_self_eq_true, if_true]
      rw [lookup_cons_ne _ _ _ _ h, lookup_cons_ne _ _ _ _ h]
    · simp only [dictSet, str_beq_false hx, Bool.false_eq_true, if_false]
      by_cases hy : k' = k₀
      · subst hy
        rw [lookup_cons_eq, lookup_cons_eq]
      · rw [lookup_cons_ne _ _ _ _ hy, lookup_cons_ne _ _ _ _ hy]
        exact ih

/-- The node-replacing map of `setInput` leaves other keys' lookups
unchanged. -/
theorem mapRepl_lookup_ne (w : Workflow) (nid : String) (nd' : WfNode)
    (nid' : String) (hne : nid' ≠ nid) :
    (w.map (fun p => if p.1 == nid then (p.1, nd') else p)).lookup nid' = w.lookup nid' := by
  induction w with
  | nil => rfl
  | cons x rest ih =>
    obtain ⟨k₀, nd₀⟩ := x
    by_cases hx : k₀ = nid
    · subst hx
      simp only [List.map, beq_self_eq_true, if_true]
      rw [lookup_cons_ne _ _ _ _ hne, lookup_cons_ne _ _ _ _ hne]
      exact ih
    · simp only [List.map, str_beq_false hx, Bool.false_eq_true, if_false]
      by_cases hy : nid' = k₀
      · subst hy
        rw [lookup_cons_eq, lookup_cons_eq]
      · rw [lookup_cons_ne _ _ _ _ hy, lookup_cons_ne _ _ _ _ hy]
        exact ih

/-- The node-replacing map of `setInput` rewrites the addressed node. -/
theorem mapRepl_lookup_self (w : Workflow) (nid : String) (nd nd' : WfNode)
    (hl : w.lookup nid = some nd) :
    (w.map (fun p => if p.1 == nid then (p.1, nd') else p)).lookup nid = some nd' := by
  induction w with
  | nil => simp [List.lookup] at hl
  | cons x rest ih =>
    obtain ⟨k₀, nd₀⟩ := x
    by_cases hx : nid = k₀
    · subst hx
      simp only [List.map, beq_self_eq_true, if_true]
      exact lookup_cons_eq _ _ _
    · have hl' : rest.lookup nid = some nd := by
        rwa [lookup_cons_ne _ _ _ _ hx] at hl
      simp only [List.map, str_beq_false (Ne.symm hx), Bool.false_eq_true, if_false]
      rw [lookup_cons_ne _ _ _ _ hx]
      exact ih hl'

/-- `setInput` leaves every other node's lookup unchanged. -/
theorem setInput_lookup_ne (w w' : Workflow) (nid field : String) (v : JVal)
    (h : setInput w nid field v = some w') (nid' : String) (hne : nid' ≠ nid) :
    w'.lookup nid' = w.lookup nid' := by
  unfold setInput at h
  cases hl : w.lookup nid with
  | none => rw [hl] at h; exact absurd h (by simp)
  | some nd =>
    rw [hl] at h
    injection h with h
    subst h
    exact mapRepl_lookup_ne w nid _ nid' hne

/-- `setInput` updates exactly the addressed node, via `dictSet` on its
`inputs`. -/
theorem setInput_lookup_self (w w' : Workflow) (nid field : String) (v : JVal)
    (h : setInput w nid field v = some w') :
    ∃ nd, w.lookup nid = some nd ∧ w'.lookup nid = some ⟨dictSet nd.inputs field v⟩ := by
  unfold setInput at h
  cases hl : w.lookup nid with
  | none => rw [hl] at h; exact absurd h (by simp)
  | some nd =>
    rw [hl] at h
    injection h with h
    subst h
    exact ⟨nd, rfl, mapRepl_lookup_self w nid nd _ hl⟩

/-- A present node id keeps `setInput` from raising. -/
theorem setInput_isSome (w : Workflow) (nid field : String) (v : JVal) (nd : WfNode)
    (h : w.lookup nid = some nd) : ∃ w', setInput w nid field v = some w' := by
  unfold setInput
  rw [h]
  exact ⟨_, rfl⟩

/-- The template edits of `buildWorkflowToRun` touch only nodes 6, 3
and 40. -/
theorem buildWorkflow_lookup_ne (bw : Workflow) (text : String)
    (seed frames width height : Int) (wtr : Workflow)
    (h : buildWorkflowToRun bw text seed frames width height = some wtr)
    (nid : String) (h6 : nid ≠ "6") (h3 : nid ≠ "3") (h40 : nid ≠ "40") :
    wtr.lookup nid = bw.lookup nid := by
  unfold buildWorkflowToRun at h
  simp only [deepcopy, POSITIVE_PROMPT_NODE_ID, KSAMPLER_NODE_ID,
    EMPTY_LATENT_VIDEO_NODE_ID] at h
  cases e1 : setInput bw "6" "text" (JVal.s text) with
  | none => rw [e1] at h; exact absurd h (by simp)
  | some w1 =>
    rw [e1] at h; simp only [Option.bind] at h
    cases e2 : setInput w1 "3" "seed" (JVal.n seed) with
    | none => rw [e2] at h; exact absurd h (by simp)
    | some w2 =>
      rw [e2] at h; simp only [Option.bind] at h
      cases e3 : setInput w2 "40" "length" (JVal.n frames) with
      | none => rw [e3] at h; exact absurd h (by simp)
      | some w3 =>
        rw [e3] at h; simp only [Option.bind] at h
        cases e4 : setInput w3 "40" "width" (JVal.n width) with
        | none => rw [e4] at h; exact absurd h (by simp)
        | some w4 =>
          rw [e4] at h; simp only [Option.bind] at h
          rw [setInput_lookup_ne w4 wtr _ _ _ h nid h40,
              setInput_lookup_ne w3 w4 _ _ _ e4 nid h40,
              setInput_lookup_ne w2 w3 _ _ _ e3 nid h40,
              setInput_lookup_ne w1 w2 _ _ _ e2 nid h3,
              setInput_lookup_ne bw w1 _ _ _ e1 nid h6]

/-- The per-job edits land in the submitted workflow: node 6 carries the
prompt text, node 3 the seed, node 40 the frame count and size, node 52
the filename prefix. -/
theorem buildWorkflow_edits (bw : Workflow) (text prefixStr : String)
    (seed frames width height : Int) (wtr wfin : Workflow)
    (hb : buildWorkflowToRun bw text seed frames width height = some wtr)
    (hp : setInput wtr SAVE_MP4_NODE_ID "filename_prefix" (.s prefixStr) = some wfin) :
    (∃ nd, wfin.lookup "6" = some nd ∧ nd.inputs.lookup "text" = some (.s text)) ∧
    (∃ nd, wfin.lookup "3" = some nd ∧ nd.inputs.lookup "seed" = some (.n seed)) ∧
    (∃ nd, wfin.lookup "40" = some nd ∧
      nd.inputs.lookup "length" = some (.n frames) ∧
      nd.inputs.lookup "width" = some (.n width) ∧
      nd.inputs.lookup "height" = some (.n height)) ∧
    (∃ nd, wfin.lookup "52" = some nd ∧
      nd.inputs.lookup "filename_prefix" = some (.s prefixStr)) := by
  unfold buildWorkflowToRun at hb
  simp only [deepcopy, POSITIVE_PROMPT_NODE_ID, KSAMPLER_NODE_ID,
    EMPTY_LATENT_VIDEO_NODE_ID] at hb
  simp only [SAVE_MP4_NODE_ID] at hp
  cases e1 : setInput bw "6" "text" (JVal.s text) with
  | none => rw [e1] at hb; exact absurd hb (by simp)
  | some w1 =>
    rw [e1] at hb; simp only [Option.bind] at hb
    cases e2 : setInput w1 "3" "seed" (JVal.n seed) with
    | none => rw [e2] at hb; exact absurd hb (by simp)
    | some w2 =>
      rw [e2] at hb; simp only [Option.bind] at hb
      cases e3 : setInput w2 "40" "length" (JVal.n frames) with
      | none => rw [e3] at hb; exact absurd hb (by simp)
      | some w3 =>
        rw [e3] at hb; simp only [Option.bind] at hb
        cases e4 : setInput w3 "40" "width" (JVal.n width) with
        | none => rw [e4] at hb; exact absurd hb (by simp)
        | some w4 =>
          rw [e4] at hb; simp only [Option.bind] at hb
          refine ⟨?_, ?_, ?_, ?_⟩
          · obtain ⟨nd₆, _, h₆⟩ := setInput_lookup_self bw w1 _ _ _ e1
            refine ⟨⟨dictSet nd₆.inputs "text" (JVal.s text)⟩, ?_, dictSet_lookup_self _ _ _⟩
            rw [setInput_lookup_ne wtr wfin _ _ _ hp "6" (by decide),
                setInput_lookup_ne w4 wtr _ _ _ hb "6" (by decide),
                setInput_lookup_ne w3 w4 _ _ _ e4 "6" (by decide),
                setInput_lookup_ne w2 w3 _ _ _ e3 "6" (by decide),
                setInput_lookup_ne w1 w2 _ _ _ e2 "6" (by decide)]
            exact h₆
          · obtain ⟨nd₃, _, h₃⟩ := setInput_lookup_self w1 w2 _ _ _ e2
            refine ⟨⟨dictSet nd₃.inputs "seed" (JVal.n seed)⟩, ?_, dictSet_lookup_self _ _ _⟩
            rw [setInput_lookup_ne wtr wfin _ _ _ hp "3" (by decide),
                setInput_lookup_ne w4 wtr _ _ _ hb "3" (by decide),
                setInput_lookup_ne w3 w4 _ _ _ e4 "3" (by decide),
                setInput_lookup_ne w2 w3 _ _ _ e3 "3" (by decide)]
            exact h₃
          · obtain ⟨ndl, hw2, h₃ₗ⟩ := setInput_lookup_self w2 w3 _ _ _ e3
            obtain ⟨ndw, hw3, h₄ₗ⟩ := setInput_lookup_self w3 w4 _ _ _ e4
            obtain ⟨ndh, hw4, h₅ₗ⟩ := setInput_lookup_self w4 wtr _ _ _ hb
            rw [h₃ₗ] at hw3
            injection hw3 with hw3
            rw [h₄ₗ] at hw4
            injection hw4 with hw4
            subst hw3
            subst hw4
            refine ⟨⟨dictSet (dictSet (dictSet ndl.inputs "length" (JVal.n frames))
              "width" (JVal.n width)) "height" (JVal.n height)⟩, ?_, ?_, ?_, ?_⟩
            · rw [setInput_lookup_ne wtr wfin _ _ _ hp "40" (by decide)]
              exact h₅ₗ
            · rw [dictSet_lookup_ne _ _ _ _ (by decide), dictSet_lookup_ne _ _ _ _ (by decide)]
              exact dictSet_lookup_self _ _ _
            · rw [dictSet_lookup_ne _ _ _ _ (by decide)]
              exact dictSet_lookup_self _ _ _
            · exact dictSet_lookup_self _ _ _
          · obtain ⟨nd₅, _, h₅⟩ := setInput_lookup_self wtr wfin _ _ _ hp
            exact ⟨⟨dictSet nd₅.inputs "filename_prefix" (JVal.s prefixStr)⟩, h₅,
              dictSet_lookup_self _ _ _⟩

/-- C10: the render-job submission applies all per-job edits (prompt
text, seed, frame count, width, height, filename prefix) to the deep
copy `workflow_to_run`, never through the caller's reference: the base
template value is what every edit chain starts from (`deepcopy bw = bw`),
the submitted workflow differs from the base only at the four edited
nodes, and it carries every per-job value. -/
theorem base_template_preserved (bw : Workflow) (text prefixStr : String)
    (seed frames width height : Int) (wtr wfin : Workflow)
    (hb : buildWorkflowToRun bw text seed frames width height = some wtr)
    (hp : setInput wtr SAVE_MP4_NODE_ID "filename_prefix" (.s prefixStr) = some wfin) :
    deepcopy bw = bw ∧
    (∀ nid, nid ≠ "6" → nid ≠ "3" → nid ≠ "40" → nid ≠ "52" →
      wfin.lookup nid = bw.lookup nid) ∧
    (∃ nd, wfin.lookup "6" = some nd ∧ nd.inputs.lookup "text" = some (.s text)) ∧
    (∃ nd, wfin.lookup "3" = some nd ∧ nd.inputs.lookup "seed" = some (.n seed)) ∧
    (∃ nd, wfin.lookup "40" = some nd ∧
      nd.inputs.lookup "length" = some (.n frames) ∧
      nd.inputs.lookup "width" = some (.n width) ∧
      nd.inputs.lookup "height" = some (.n height)) ∧
    (∃ nd, wfin.lookup "52" = some nd ∧
      nd.inputs.lookup "filename_prefix" = some (.s prefixStr)) := by
  obtain ⟨c6, c3, c40, c52⟩ := buildWorkflow_edits bw text prefixStr seed frames width height
    wtr wfin hb hp
  refine ⟨rfl, ?_, c6, c3, c40, c52⟩
  intro nid h6 h3 h40 h52
  rw [setInput_lookup_ne wtr wfin _ _ _ (by simpa [SAVE_MP4_NODE_ID] using hp) nid h52]
  exact buildWorkflow_lookup_ne bw text seed frames width height wtr hb nid h6 h3 h40

/-- Witness for `base_template_preserved` on the sample template. -/
theorem base_template_preserved_witness : deepcopy sampleWf = sampleWf :=
  (base_template_preserved sampleWf "p" "pre" 1 65 832 480 _ _ rfl rfl).1

/-- A poll window that only ever sees pending history times out. -/
theorem pollFrom_timeout (poll : Nat → PollResponse) (k n : Nat)
    (h : ∀ a, a < k + n → poll a = .noHistory ∨ poll a = .noOutputs) :
    pollFrom poll k n = ⟨"ERROR_TIMEOUT", none, true⟩ := by
  induction n generalizing k with
  | zero => rfl
  | succ r ih =>
    have hk : poll k = .noHistory ∨ poll k = .noOutputs := h k (by omega)
    have htail : ∀ a, a < (k + 1) + r → poll a = .noHistory ∨ poll a = .noOutputs :=
      fun a ha => h a (by omega)
    rcases hk with hk | hk <;> simp only [pollFrom, hk] <;> exact ih (k + 1) htail

/-- C6 counterexample: every poll returns a history whose `"outputs"`
section exists but never contains the save node — so "the history never
contains the designated output stage" — yet the client returns
`ERROR_SAVE_NODE_NOT_IN_OUTPUTS` on the very first poll, not
`ERROR_TIMEOUT`. -/
theorem history_without_stage_counterexample :
    run_comfyui_video_generation ⟨some "pid", fun _ => .outputs []⟩ (some sampleWf)
      "p" "pre" 65 832 480 0
      = some ⟨"ERROR_SAVE_NODE_NOT_IN_OUTPUTS", none, true⟩ ∧
    ("ERROR_SAVE_NODE_NOT_IN_OUTPUTS" : String) ≠ "ERROR_TIMEOUT" := by
  exact ⟨rfl, by decide⟩

/-- C6 amended: when within the 360-attempt cap no poll ever sees a
history entry carrying an `"outputs"` section, the client returns the
value `ERROR_TIMEOUT` (a return value of the total function, not an
exception); a history whose `"outputs"` lacks the save node instead
yields `ERROR_SAVE_NODE_NOT_IN_OUTPUTS`, also as a value. -/
theorem polling_timeout_amended (env : GenEnv) (bw : Workflow)
    (text prefixStr : String) (frames width height seed : Int) (wtr : Workflow) (pid : String)
    (hne : bw.isEmpty = false)
    (hb : buildWorkflowToRun bw text seed frames width height = some wtr)
    (h52 : (wtr.lookup SAVE_MP4_NODE_ID).isSome = true)
    (hq : env.queueResult = some pid)
    (hp : ∀ a, a < max_poll_attempts → env.poll a = .noHistory ∨ env.poll a = .noOutputs) :
    run_comfyui_video_generation env (some bw) text prefixStr frames width height seed
      = some ⟨"ERROR_TIMEOUT", none, true⟩ := by
  obtain ⟨nd, hnd⟩ := Option.isSome_iff_exists.mp h52
  obtain ⟨wfin, hw⟩ := setInput_isSome wtr SAVE_MP4_NODE_ID "filename_prefix"
    (.s prefixStr) nd hnd
  unfold run_comfyui_video_generation
  simp only [hne, Bool.false_eq_true, if_false, hb, hnd, Option.isNone_some, hw, hq]
  exact congrArg some (pollFrom_timeout env.poll 0 max_poll_attempts
    (fun a ha => hp a (by omega)))

/-- Witness for `polling_timeout_amended`: a backend that always answers
with an empty history. -/
theorem polling_timeout_amended_witness :
    run_comfyui_video_generation ⟨some "pid", fun _ => .noHistory⟩ (some sampleWf)
      "p" "pre" 65 832 480 0
      = some ⟨"ERROR_TIMEOUT", none, true⟩ :=
  polling_timeout_amended ⟨some "pid", fun _ => .noHistory⟩ sampleWf "p" "pre" 65 832 480 0
    _ "pid" rfl rfl rfl rfl (fun _ _ => Or.inl rfl)

/-- With the save node missing from a loaded template, the generation
call detects the misconfiguration before queuing — for every item. -/
theorem runGen_misconfig (env : GenEnv) (bw : Workflow) (text prefixStr : String)
    (frames width height seed : Int)
    (hne : bw.isEmpty = false) (h52 : bw.lookup SAVE_MP4_NODE_ID = none) :
    run_comfyui_video_generation env (some bw) text prefixStr frames width height seed
      = (buildWorkflowToRun bw text seed frames width height).map
          (fun _ => ⟨"ERROR_SAVE_MP4_NODE_MISSING_IN_WORKFLOW", none, false⟩) := by
  unfold run_comfyui_video_generation
  simp only [hne, Bool.false_eq_true, if_false]
  cases hbw : buildWorkflowToRun bw text seed frames width height with
  | none => rfl
  | some wtr =>
    have hl : wtr.lookup SAVE_MP4_NODE_ID = none := by
      rw [buildWorkflow_lookup_ne bw text seed frames width height wtr hbw
        SAVE_MP4_NODE_ID (by decide) (by decide) (by decide)]
      exact h52
    simp [hl]

/-- With the save node missing, each loop iteration either skips the
item (no prompt) or records the misconfiguration status, without any
queue call. -/
theorem processItem_misconfig (bw : Workflow) (ienv : ItemEnv) (i : Nat)
    (item : ContentItem)
    (hne : bw.isEmpty = false) (h52 : bw.lookup SAVE_MP4_NODE_ID = none) :
    processItem (some bw) ienv i item
      = if truthyOpt item.image_prompt = false then
          some ({ id := item.id.getD (Int.ofNat (i + 1)), clip_order := i,
                  status := "SKIPPED_NO_PROMPT", comfy_file_info := none,
                  mp4_path := none }, false)
        else
          (buildWorkflowToRun bw (item.image_prompt.getD "") ienv.seed
              (item.duration_frames.getD DEFAULT_VIDEO_FRAMES)
              (item.width.getD DEFAULT_VIDEO_WIDTH)
              (item.height.getD DEFAULT_VIDEO_HEIGHT)).map
            (fun _ => ({ id := item.id.getD (Int.ofNat (i + 1)), clip_order := i,
                         status := "ERROR_SAVE_MP4_NODE_MISSING_IN_WORKFLOW",
                         comfy_file_info := none, mp4_path := none }, false)) := by
  unfold processItem
  by_cases hp : truthyOpt item.image_prompt = false
  · rw [if_pos hp, if_pos hp]
  · rw [if_neg hp, if_neg hp]
    have hr := runGen_misconfig ienv.gen bw (item.image_prompt.getD "")
      ("narrativegen_clip_" ++ pad4 (item.id.getD (Int.ofNat (i + 1))) ++ "_")
      (item.duration_frames.getD DEFAULT_VIDEO_FRAMES)
      (item.width.getD DEFAULT_VIDEO_WIDTH)
      (item.height.getD DEFAULT_VIDEO_HEIGHT) ienv.seed hne h52
    simp only [hr]
    cases hbw : buildWorkflowToRun bw (item.image_prompt.getD "") ienv.seed
        (item.duration_frames.getD DEFAULT_VIDEO_FRAMES)
        (item.width.getD DEFAULT_VIDEO_WIDTH)
        (item.height.getD DEFAULT_VIDEO_HEIGHT) with
    | none => rfl
    | some wtr => simp

/-- C4 counterexample: a template lacking the save node, run over two
items — the loop does not abort after the first detection: the second
item is still put through the submission path and recorded in the
manifest with the same misconfiguration status (while indeed no queue
call is ever made: the count is 0). -/
theorem misconfig_loop_continues_counterexample :
    stage2 (some [("6", ⟨[("text", .s "")]⟩), ("3", ⟨[("seed", .n 0)]⟩),
                  ("40", ⟨[("length", .n 0)]⟩)])
      (fun _ => ⟨⟨some "pid", fun _ => .noHistory⟩, 0, .raiseOther⟩) 0
      [⟨some 1, some "a", none, none, none⟩, ⟨some 2, some "b", none, none, none⟩]
      = some ([⟨1, 0, "ERROR_SAVE_MP4_NODE_MISSING_IN_WORKFLOW", none, none⟩,
               ⟨2, 1, "ERROR_SAVE_MP4_NODE_MISSING_IN_WORKFLOW", none, none⟩], 0) := rfl

/-- C4 amended: when the loaded template lacks the MP4-save node id,
no item's job is ever queued to the backend (the check precedes the
queue call and fails identically for every item), but the per-item loop
is not aborted: every ContentItem still gets a manifest record, carrying
the misconfiguration status (or the skip status for prompt-less items). -/
theorem misconfig_no_queue_amended (bw : Workflow) (envs : Nat → ItemEnv) (i : Nat)
    (items : List ContentItem) (m : List ClipEntry) (n : Nat)
    (hne : bw.isEmpty = false) (h52 : bw.lookup SAVE_MP4_NODE_ID = none)
    (h : stage2 (some bw) envs i items = some (m, n)) :
    n = 0 ∧ m.length = items.length ∧
    ∀ e ∈ m, e.status = "ERROR_SAVE_MP4_NODE_MISSING_IN_WORKFLOW" ∨
      e.status = "SKIPPED_NO_PROMPT" := by
  induction items generalizing i m n with
  | nil =>
    simp only [stage2, Option.some.injEq, Prod.mk.injEq] at h
    obtain ⟨hm, hn⟩ := h
    subst hm; subst hn
    simp
  | cons item rest ih =>
    simp only [stage2] at h
    rw [processItem_misconfig bw (envs i) i item hne h52] at h
    by_cases hp : truthyOpt item.image_prompt = false
    · rw [if_pos hp] at h
      cases hrest : stage2 (some bw) envs (i + 1) rest with
      | none => rw [hrest] at h; exact absurd h (by simp)
      | some pr =>
        obtain ⟨m', n'⟩ := pr
        rw [hrest] at h
        simp only [Option.some.injEq, Prod.mk.injEq] at h
        obtain ⟨hm, hn⟩ := h
        subst hm
        simp only [Bool.false_eq_true, if_false, Nat.add_zero] at hn
        obtain ⟨hn0, hlen, hall⟩ := ih (i + 1) m' n' hrest
        refine ⟨by omega, by simp [hlen], ?_⟩
        intro e he
        rcases List.mem_cons.mp he with he | he
        · subst he; right; rfl
        · exact hall e he
    · rw [if_neg hp] at h
      cases hbw : buildWorkflowToRun bw (item.image_prompt.getD "") (envs i).seed
          (item.duration_frames.getD DEFAULT_VIDEO_FRAMES)
          (item.width.getD DEFAULT_VIDEO_WIDTH)
          (item.height.getD DEFAULT_VIDEO_HEIGHT) with
      | none => rw [hbw] at h; exact absurd h (by simp)
      | some wtr =>
        rw [hbw] at h
        simp only [Option.map_some'] at h
        cases hrest : stage2 (some bw) envs (i + 1) rest with
        | none => rw [hrest] at h; exact absurd h (by simp)
        | some pr =>
          obtain ⟨m', n'⟩ := pr
          rw [hrest] at h
          simp only [Option.some.injEq, Prod.mk.injEq] at h
          obtain ⟨hm, hn⟩ := h
          subst hm
          simp only [Bool.false_eq_true, if_false, Nat.add_zero] at hn
          obtain ⟨hn0, hlen, hall⟩ := ih (i + 1) m' n' hrest
          refine ⟨by omega, by simp [hlen], ?_⟩
          intro e he
          rcases List.mem_cons.mp he with he | he
          · subst he; left; rfl
          · exact hall e he

/-- Witness for `misconfig_no_queue_amended`: the second item's manifest
record in the two-item run over the 52-less template. -/
theorem misconfig_no_queue_amended_witness :
    ((⟨2, 1, "ERROR_SAVE_MP4_NODE_MISSING_IN_WORKFLOW", none, none⟩ : ClipEntry).status
        = "ERROR_SAVE_MP4_NODE_MISSING_IN_WORKFLOW" ∨
      (⟨2, 1, "ERROR_SAVE_MP4_NODE_MISSING_IN_WORKFLOW", none, none⟩ : ClipEntry).status
        = "SKIPPED_NO_PROMPT") :=
  (misconfig_no_queue_amended
      [("6", ⟨[("text", .s "")]⟩), ("3", ⟨[("seed", .n 0)]⟩), ("40", ⟨[("length", .n 0)]⟩)]
      (fun _ => ⟨⟨some "pid", fun _ => .noHistory⟩, 0, .raiseOther⟩) 0
      [⟨some 1, some "a", none, none, none⟩, ⟨some 2, some "b", none, none, none⟩]
      [⟨1, 0, "ERROR_SAVE_MP4_NODE_MISSING_IN_WORKFLOW", none, none⟩,
       ⟨2, 1, "ERROR_SAVE_MP4_NODE_MISSING_IN_WORKFLOW", none, none⟩] 0
      rfl rfl rfl).2.2
    ⟨2, 1, "ERROR_SAVE_MP4_NODE_MISSING_IN_WORKFLOW", none, none⟩ (by simp)

/-- The resolution step never reports the download-stage status. -/
theorem resolveToGenResult_status_ne (nod : NodeOutput) :
    (resolveToGenResult nod).status ≠ "SUCCESS_MP4_DOWNLOADED" := by
  unfold resolveToGenResult
  cases resolve nod with
  | success info => exact (by decide : ("SUCCESS" : String) ≠ "SUCCESS_MP4_DOWNLOADED")
  | lacksFilename =>
    exact (by decide : ("ERROR_POTENTIAL_KEY_LACKS_FILENAME" : String)
      ≠ "SUCCESS_MP4_DOWNLOADED")
  | noUsableKey =>
    exact (by decide : ("ERROR_NO_USABLE_KEY_IN_OUTPUT_MP4" : String)
      ≠ "SUCCESS_MP4_DOWNLOADED")

/-- The poll loop never reports the download-stage status. -/
theorem pollFrom_status_ne (poll : Nat → PollResponse) (k n : Nat) :
    (pollFrom poll k n).status ≠ "SUCCESS_MP4_DOWNLOADED" := by
  induction n generalizing k with
  | zero => exact (by decide : ("ERROR_TIMEOUT" : String) ≠ "SUCCESS_MP4_DOWNLOADED")
  | succ r ih =>
    unfold pollFrom
    cases poll k with
    | noHistory => exact ih (k + 1)
    | noOutputs => exact ih (k + 1)
    | outputs mo =>
      show (match mo.lookup SAVE_MP4_NODE_ID with
        | some nod => resolveToGenResult nod
        | none => (⟨"ERROR_SAVE_NODE_NOT_IN_OUTPUTS", none, true⟩ : GenResult)).status
          ≠ "SUCCESS_MP4_DOWNLOADED"
      cases mo.lookup SAVE_MP4_NODE_ID with
      | none =>
        exact (by decide : ("ERROR_SAVE_NODE_NOT_IN_OUTPUTS" : String)
          ≠ "SUCCESS_MP4_DOWNLOADED")
      | some nod => exact resolveToGenResult_status_ne nod

/-- The generation call never reports the download-stage status. -/
theorem runGen_status_ne (env : GenEnv) (bw : Option Workflow)
    (text prefixStr : String) (frames width height seed : Int) (gr : GenResult)
    (h : run_comfyui_video_generation env bw text prefixStr frames width height seed
      = some gr) : gr.status ≠ "SUCCESS_MP4_DOWNLOADED" := by
  cases bw with
  | none =>
    simp only [run_comfyui_video_generation, Option.some.injEq] at h
    subst h
    decide
  | some w =>
    simp only [run_comfyui_video_generation] at h
    by_cases hw : w.isEmpty = true
    · rw [if_pos hw] at h
      injection h with h
      subst h
      decide
    · rw [if_neg hw] at h
      cases hbw : buildWorkflowToRun w text seed frames width height with
      | none => rw [hbw] at h; exact absurd h (by simp)
      | some wtr =>
        simp only [hbw] at h
        by_cases h52 : (wtr.lookup SAVE_MP4_NODE_ID).isNone = true
        · rw [if_pos h52] at h
          injection h with h
          subst h
          decide
        · rw [if_neg h52] at h
          cases hs : setInput wtr SAVE_MP4_NODE_ID "filename_prefix" (JVal.s prefixStr) with
          | none => rw [hs] at h; exact absurd h (by simp)
          | some wfin =>
            simp only [hs] at h
            cases hq : env.queueResult with
            | none =>
              simp only [hq] at h
              injection h with h
              subst h
              decide
            | some pid =>
              simp only [hq] at h
              injection h with h
              subst h
              exact pollFrom_status_ne env.poll 0 max_poll_attempts

/-- Each stage-2 manifest record sets `mp4_path` exactly when its status
is the download-verified success state. -/
theorem processItem_localpath (bw : Option Workflow) (ienv : ItemEnv) (i : Nat)
    (item : ContentItem) (e : ClipEntry) (q : Bool)
    (h : processItem bw ienv i item = some (e, q)) :
    (e.mp4_path ≠ none ↔ e.status = "SUCCESS_MP4_DOWNLOADED") := by
  unfold processItem at h
  by_cases hp : truthyOpt item.image_prompt = false
  · rw [if_pos hp] at h
    simp only [Option.some.injEq, Prod.mk.injEq] at h
    obtain ⟨he, _⟩ := h
    subst he
    simp
  · rw [if_neg hp] at h
    cases hg : run_comfyui_video_generation ienv.gen bw (item.image_prompt.getD "")
        ("narrativegen_clip_" ++ pad4 (item.id.getD (Int.ofNat (i + 1))) ++ "_")
        (item.duration_frames.getD DEFAULT_VIDEO_FRAMES)
        (item.width.getD DEFAULT_VIDEO_WIDTH)
        (item.height.getD DEFAULT_VIDEO_HEIGHT) ienv.seed with
    | none => rw [hg] at h; exact absurd h (by simp)
    | some gr =>
      simp only [hg] at h
      by_cases hs : (gr.status == "SUCCESS") = true
      · rw [if_pos hs] at h
        cases hd : gr.data with
        | none =>
          simp only [hd] at h
          simp only [Option.some.injEq, Prod.mk.injEq] at h
          obtain ⟨he, _⟩ := h
          subst he
          simp
        | some fi =>
          simp only [hd] at h
          by_cases hf : truthyOpt fi.filename = true
          · rw [if_pos hf] at h
            by_cases hdl : (download_comfy_output fi.filename (fi.subfolder.getD "")
                (fi.ftype.getD "output") (localMp4Path (fi.filename.getD ""))
                ienv.transfer).1 = true
            · rw [if_pos hdl] at h
              simp only [Option.some.injEq, Prod.mk.injEq] at h
              obtain ⟨he, _⟩ := h
              subst he
              simp
            · rw [if_neg hdl] at h
              simp only [Option.some.injEq, Prod.mk.injEq] at h
              obtain ⟨he, _⟩ := h
              subst he
              simp
          · rw [if_neg hf] at h
            simp only [Option.some.injEq, Prod.mk.injEq] at h
            obtain ⟨he, _⟩ := h
            subst he
            simp
      · rw [if_neg hs] at h
        simp only [Option.some.injEq, Prod.mk.injEq] at h
        obtain ⟨he, _⟩ := h
        subst he
        have := runGen_status_ne ienv.gen bw (item.image_prompt.getD "")
          ("narrativegen_clip_" ++ pad4 (item.id.getD (Int.ofNat (i + 1))) ++ "_")
          (item.duration_frames.getD DEFAULT_VIDEO_FRAMES)
          (item.width.getD DEFAULT_VIDEO_WIDTH)
          (item.height.getD DEFAULT_VIDEO_HEIGHT) ienv.seed gr hg
        simp [this]

/-- C9: every ClipJob record the stage-2 loop appends has a non-null
`mp4_path` exactly when its status is `SUCCESS_MP4_DOWNLOADED`; every
other status (skipped, misconfigured, queue-failed, timeout, no-output,
lacking file data, download-failed) carries `mp4_path = None`. -/
theorem localpath_iff_success (bw : Option Workflow) (envs : Nat → ItemEnv) (i : Nat)
    (items : List ContentItem) (m : List ClipEntry) (n : Nat)
    (h : stage2 bw envs i items = some (m, n)) :
    ∀ e ∈ m, (e.mp4_path ≠ none ↔ e.status = "SUCCESS_MP4_DOWNLOADED") := by
  induction items generalizing i m n with
  | nil =>
    simp only [stage2, Option.some.injEq, Prod.mk.injEq] at h
    obtain ⟨hm, _⟩ := h
    subst hm
    simp
  | cons item rest ih =>
    simp only [stage2] at h
    cases hpi : processItem bw (envs i) i item with
    | none => rw [hpi] at h; exact absurd h (by simp)
    | some p =>
      obtain ⟨e₀, q₀⟩ := p
      rw [hpi] at h
      cases hrest : stage2 bw envs (i + 1) rest with
      | none => rw [hrest] at h; exact absurd h (by simp)
      | some pr =>
        obtain ⟨m', n'⟩ := pr
        rw [hrest] at h
        simp only [Option.some.injEq, Prod.mk.injEq] at h
        obtain ⟨hm, _⟩ := h
        subst hm
        intro e he
        rcases List.mem_cons.mp he with he | he
        · subst he
          exact processItem_localpath bw (envs i) i item _ _ hpi
        · exact ih (i + 1) m' n' hrest e he

/-- Witness for `localpath_iff_success`: a one-item run whose item lacks
a prompt, yielding the skip record. -/
theorem localpath_iff_success_witness :
    ((⟨1, 0, "SKIPPED_NO_PROMPT", none, none⟩ : ClipEntry).mp4_path ≠ none ↔
      (⟨1, 0, "SKIPPED_NO_PROMPT", none, none⟩ : ClipEntry).status
        = "SUCCESS_MP4_DOWNLOADED") :=
  localpath_iff_success (some sampleWf)
    (fun _ => ⟨⟨some "pid", fun _ => .noHistory⟩, 0, .raiseOther⟩) 0
    [⟨some 1, none, none, none, none⟩]
    [⟨1, 0, "SKIPPED_NO_PROMPT", none, none⟩] 0 rfl
    ⟨1, 0, "SKIPPED_NO_PROMPT", none, none⟩ (by simp)

/-- A manifest with pairwise-distinct `clip_order` values sorts to a
strictly increasing sequence. -/
theorem sortManifest_pairwise_lt (m : List ClipEntry)
    (hnd : (m.map ClipEntry.clip_order).Nodup) :
    (sortManifest m).Pairwise (fun a b => a.clip_order < b.clip_order) := by
  haveI ht : IsTotal ClipEntry (fun a b => a.clip_order ≤ b.clip_order) :=
    ⟨fun a b => Nat.le_total _ _⟩
  haveI htr : IsTrans ClipEntry (fun a b => a.clip_order ≤ b.clip_order) :=
    ⟨fun _ _ _ => Nat.le_trans⟩
  have hs : (sortManifest m).Pairwise (fun a b => a.clip_order ≤ b.clip_order) := by
    unfold sortManifest
    exact List.sorted_insertionSort (fun a b : ClipEntry => a.clip_order ≤ b.clip_order) m
  have hperm : (sortManifest m).Perm m := by
    unfold sortManifest
    exact List.perm_insertionSort (fun a b : ClipEntry => a.clip_order ≤ b.clip_order) m
  have hnd2 : ((sortManifest m).map ClipEntry.clip_order).Nodup :=
    ((hperm.map ClipEntry.clip_order).nodup_iff).mpr hnd
  have hne : (sortManifest m).Pairwise (fun a b => a.clip_order ≠ b.clip_order) :=
    (List.pairwise_map).mp hnd2
  exact (hs.and hne).imp (fun hab => Nat.lt_of_le_of_ne hab.1 hab.2)

/-- Two permuted manifests with the same distinct `clip_order` values
sort identically. -/
theorem sortManifest_eq_of_perm (m₁ m₂ : List ClipEntry) (hp : m₁.Perm m₂)
    (hnd : (m₁.map ClipEntry.clip_order).Nodup) :
    sortManifest m₁ = sortManifest m₂ := by
  haveI : IsAntisymm ClipEntry (fun a b => a.clip_order < b.clip_order) :=
    ⟨fun a b h1 h2 => absurd h1 (Nat.lt_asymm h2)⟩
  have hnd2 : (m₂.map ClipEntry.clip_order).Nodup :=
    ((hp.map ClipEntry.clip_order).nodup_iff).mp hnd
  have hperm : (sortManifest m₁).Perm (sortManifest m₂) := by
    unfold sortManifest
    exact ((List.perm_insertionSort (fun a b : ClipEntry => a.clip_order ≤ b.clip_order)
        m₁).trans hp).trans
      (List.perm_insertionSort (fun a b : ClipEntry => a.clip_order ≤ b.clip_order) m₂).symm
  exact List.eq_of_perm_of_sorted hperm
    (sortManifest_pairwise_lt m₁ hnd) (sortManifest_pairwise_lt m₂ hnd2)

/-- C8: the stage-6 concatenation list is determined by each record's
stored `clip_order` alone — any permutation of the manifest (append
order, filesystem order) yields the same selection, and the selected
records are in strictly ascending `clip_order`. -/
theorem assembly_order_by_clip_order (fs : String → Bool) (m₁ m₂ : List ClipEntry)
    (hp : m₁.Perm m₂) (hnd : (m₁.map ClipEntry.clip_order).Nodup) :
    stage6Paths fs m₁ = stage6Paths fs m₂ ∧
    (stage6Entries fs m₁).Pairwise (fun a b => a.clip_order < b.clip_order) := by
  constructor
  · unfold stage6Paths stage6Entries
    rw [sortManifest_eq_of_perm m₁ m₂ hp hnd]
  · exact (sortManifest_pairwise_lt m₁ hnd).sublist (List.filter_sublist _)

/-- Witness for `assembly_order_by_clip_order`: a two-record manifest in
reversed append order. -/
theorem assembly_order_by_clip_order_witness :
    stage6Paths (fun _ => true)
        [⟨2, 1, "SUCCESS_MP4_DOWNLOADED", none, some "video_outputs/mp4_clips/b.mp4"⟩,
         ⟨1, 0, "SUCCESS_MP4_DOWNLOADED", none, some "video_outputs/mp4_clips/a.mp4"⟩]
      = stage6Paths (fun _ => true)
        [⟨1, 0, "SUCCESS_MP4_DOWNLOADED", none, some "video_outputs/mp4_clips/a.mp4"⟩,
         ⟨2, 1, "SUCCESS_MP4_DOWNLOADED", none, some "video_outputs/mp4_clips/b.mp4"⟩] ∧
    (stage6Entries (fun _ => true)
        [⟨2, 1, "SUCCESS_MP4_DOWNLOADED", none, some "video_outputs/mp4_clips/b.mp4"⟩,
         ⟨1, 0, "SUCCESS_MP4_DOWNLOADED", none, some "video_outputs/mp4_clips/a.mp4"⟩]).Pairwise
      (fun a b => a.clip_order < b.clip_order) :=
  assembly_order_by_clip_order (fun _ => true) _ _ (List.Perm.swap _ _ _) (by decide)

/-- Every stage-2 record stores its loop index as `clip_order`. -/
theorem processItem_order (bw : Option Workflow) (ienv : ItemEnv) (i : Nat)
    (item : ContentItem) (e : ClipEntry) (q : Bool)
    (h : processItem bw ienv i item = some (e, q)) : e.clip_order = i := by
  unfold processItem at h
  by_cases hp : truthyOpt item.image_prompt = false
  · rw [if_pos hp] at h
    simp only [Option.some.injEq, Prod.mk.injEq] at h
    obtain ⟨he, _⟩ := h
    subst he
    rfl
  · rw [if_neg hp] at h
    cases hg : run_comfyui_video_generation ienv.gen bw (item.image_prompt.getD "")
        ("narrativegen_clip_" ++ pad4 (item.id.getD (Int.ofNat (i + 1))) ++ "_")
        (item.duration_frames.getD DEFAULT_VIDEO_FRAMES)
        (item.width.getD DEFAULT_VIDEO_WIDTH)
        (item.height.getD DEFAULT_VIDEO_HEIGHT) ienv.seed with
    | none => rw [hg] at h; exact absurd h (by simp)
    | some gr =>
      simp only [hg] at h
      by_cases hs : (gr.status == "SUCCESS") = true
      · rw [if_pos hs] at h
        cases hd : gr.data with
        | none =>
          simp only [hd] at h
          simp only [Option.some.injEq, Prod.mk.injEq] at h
          obtain ⟨he, _⟩ := h
          subst he
          rfl
        | some fi =>
          simp only [hd] at h
          by_cases hf : truthyOpt fi.filename = true
          · rw [if_pos hf] at h
            by_cases hdl : (download_comfy_output fi.filename (fi.subfolder.getD "")
                (fi.ftype.getD "output") (localMp4Path (fi.filename.getD ""))
                ienv.transfer).1 = true
            · rw [if_pos hdl] at h
              simp only [Option.some.injEq, Prod.mk.injEq] at h
              obtain ⟨he, _⟩ := h
              subst he
              rfl
            · rw [if_neg hdl] at h
              simp only [Option.some.injEq, Prod.mk.injEq] at h
              obtain ⟨he, _⟩ := h
              subst he
              rfl
          · rw [if_neg hf] at h
            simp only [Option.some.injEq, Prod.mk.injEq] at h
            obtain ⟨he, _⟩ := h
            subst he
            rfl
      · rw [if_neg hs] at h
        simp only [Option.some.injEq, Prod.mk.injEq] at h
        obtain ⟨he, _⟩ := h
        subst he
        rfl

/-- A stage-2 manifest stores the consecutive loop indices as
`clip_order`: the values are `i, i+1, …`, hence pairwise distinct —
the hypothesis of `assembly_order_by_clip_order` holds for every
manifest the pipeline writes. -/
theorem stage2_orders_range (bw : Option Workflow) (envs : Nat → ItemEnv) :
    ∀ (items : List ContentItem) (i : Nat) (m : List ClipEntry) (n : Nat),
      stage2 bw envs i items = some (m, n) →
      m.map ClipEntry.clip_order = List.range' i items.length := by
  intro items
  induction items with
  | nil =>
    intro i m n h
    simp only [stage2, Option.some.injEq, Prod.mk.injEq] at h
    obtain ⟨hm, _⟩ := h
    subst hm
    rfl
  | cons item rest ih =>
    intro i m n h
    simp only [stage2] at h
    cases hpi : processItem bw (envs i) i item with
    | none => rw [hpi] at h; exact absurd h (by simp)
    | some p =>
      obtain ⟨e₀, q₀⟩ := p
      rw [hpi] at h
      cases hrest : stage2 bw envs (i + 1) rest with
      | none => rw [hrest] at h; exact absurd h (by simp)
      | some pr =>
        obtain ⟨m', n'⟩ := pr
        rw [hrest] at h
        simp only [Option.some.injEq, Prod.mk.injEq] at h
        obtain ⟨hm, _⟩ := h
        subst hm
        have h0 := processItem_order bw (envs i) i item _ _ hpi
        have h1 := ih (i + 1) m' n' hrest
        show ClipEntry.clip_order e₀ :: m'.map ClipEntry.clip_order
          = List.range' i (rest.length + 1)
        rw [h0, h1]
        rfl

end AutoYT
